import Mathlib

/-!
Shallow embedding of the Modbus RTU master library in `src/STM32/modBusRTU.c`
and `src/STM32/modBusRTU.h`, together with theorems settling the claims about
its frame codec, CRC engine and receive state machine.

Modelling conventions:
  * machine bytes (`uint8_t`) are `Nat` values; `% 256` is applied at every
    point where the C type system truncates (stores into `uint8_t` fields,
    reads through `uint8_t*`);
  * the 16-bit CRC accumulator stays below `2 ^ 16` by construction
    (xor of 16-bit values and right shifts never overflow), matching
    `uint16_t` without further reduction;
  * the module-level globals `txPacket` / `rxPacket` are passed and returned
    explicitly; the UART transport outcome (`HAL_OK` or not) is a `Bool`
    parameter, and the bytes handed to `HAL_UART_Transmit` are returned so
    theorems can speak about the wire frame;
  * fallible paths return the `ModbusRTU_ErrorT` code exactly as the C does.
-/

/-- From modBusRTU.h: `#define MODBUS_RTU_MAX_DATA_SIZE 250`. -/
def MODBUS_RTU_MAX_DATA_SIZE : Nat := 250

/-- From modBusRTU.h: `#define MODBUS_RTU_MAX_FRAME_SIZE 256`. -/
def MODBUS_RTU_MAX_FRAME_SIZE : Nat := 256

/-- From modBusRTU.h: the `ModbusRTU_ErrorT` result enumeration. -/
inductive ModbusRTU_ErrorT where
  | MODBUS_RTU_SUCCESS
  | MODBUS_RTU_ERROR_CRC
  | MODBUS_RTU_ERROR_RX_TIMEOUT
  | MODBUS_RTU_ERROR_TX_FAILED
  | MODBUS_RTU_ERROR_INVALID_SLAVE_ID
  | MODBUS_RTU_ERROR_INVALID_FRAME
  | MODBUS_RTU_RX_BUSY
  deriving DecidableEq, Repr

/-- From modBusRTU.c: `modBusPacket_t` — `slaveId`, `functionCode`, and
`data[MODBUS_RTU_MAX_DATA_SIZE + 2]` (the `+ 2` reserves room for the CRC).
Fields hold `uint8_t` contents; the embedding reduces `% 256` wherever the C
stores into or reads them as bytes. -/
structure modBusPacket_t where
  slaveId : Nat
  functionCode : Nat
  data : List Nat
  deriving DecidableEq, Repr

/-- Reading a `modBusPacket_t` through `(uint8_t*)&packet`: the struct is three
packed byte fields, so the byte stream is `slaveId`, `functionCode`, then the
`data` array. -/
def packetBytes (p : modBusPacket_t) : List Nat :=
  p.slaveId % 256 :: p.functionCode % 256 :: p.data

/-- From modBusRTU.h: `ModbusRTU_HandleT`. The `huart` and `htim` handles are
external collaborators and carry no state the claims mention, so only
`slaveId` and `isRxDataReceived` are modelled. -/
structure ModbusRTU_HandleT where
  slaveId : Nat
  isRxDataReceived : Bool
  deriving DecidableEq, Repr

/-- One iteration of the inner `for (j = 0; j < 8; j++)` loop of
`ModbusRTU_CalculateCRC`: shift right, conditionally xor `0xA001`. -/
def crc16Round (crc : Nat) : Nat :=
  if crc % 2 = 1 then (crc / 2) ^^^ 0xA001 else crc / 2

/-- Body of the outer loop of `ModbusRTU_CalculateCRC`: `crc ^= data[i]`
(a `uint8_t` read, hence `% 256`) followed by eight inner rounds. -/
def crc16UpdateByte (crc b : Nat) : Nat :=
  crc16Round^[8] (crc ^^^ (b % 256))

/-- From modBusRTU.c lines 219-235:
`static uint16_t ModbusRTU_CalculateCRC(uint8_t *data, size_t length)`.
The C walks `data[0] .. data[length-1]`; the embedding indexes the list the
same way (out-of-range reads default to 0, which no in-contract caller hits). -/
def ModbusRTU_CalculateCRC (data : List Nat) (length : Nat) : Nat :=
  (List.range length).foldl (fun crc i => crc16UpdateByte crc (data.getD i 0)) 0xFFFF

/-- The zero-initialised module static `modBusPacket_t` (`= { 0 }`). -/
def zeroPacket : modBusPacket_t :=
  ⟨0, 0, List.replicate (MODBUS_RTU_MAX_DATA_SIZE + 2) 0⟩

/-- From modBusRTU.c lines 96-128: `modbusRTUSendData`.
Returns the error code, the updated global `txPacket`, and the bytes handed to
`HAL_UART_Transmit` (`none` when size validation fails before any
construction). `txOk` models the transport returning `HAL_OK`. -/
def modbusRTUSendData (modbus : ModbusRTU_HandleT) (functionCode : Nat)
    (data : List Nat) (dataSize : Nat) (txOk : Bool) (txPacket : modBusPacket_t) :
    ModbusRTU_ErrorT × modBusPacket_t × Option (List Nat) :=
  if dataSize > MODBUS_RTU_MAX_DATA_SIZE then
    (.MODBUS_RTU_ERROR_INVALID_FRAME, txPacket, none)
  else
    let data1 := (data.take dataSize).map (fun b => b % 256) ++ txPacket.data.drop dataSize
    let calCrc := ModbusRTU_CalculateCRC
      (modbus.slaveId % 256 :: functionCode % 256 :: data1) (dataSize + 2)
    let data2 := (data1.set dataSize (calCrc &&& 0xFF)).set (dataSize + 1) ((calCrc >>> 8) &&& 0xFF)
    let tx : modBusPacket_t := ⟨modbus.slaveId % 256, functionCode % 256, data2⟩
    let frame := (packetBytes tx).take (dataSize + 4)
    if txOk then (.MODBUS_RTU_SUCCESS, tx, some frame)
    else (.MODBUS_RTU_ERROR_TX_FAILED, tx, some frame)

/-- From modBusRTU.c lines 138-152: `modbusRTUReciveData`. Only the size
validation affects the result; the `HAL_UART_Receive_IT` arming is an external
side effect whose return value the C ignores. -/
def modbusRTUReciveData (dataSize : Nat) : ModbusRTU_ErrorT :=
  if dataSize > MODBUS_RTU_MAX_DATA_SIZE then .MODBUS_RTU_ERROR_INVALID_FRAME
  else .MODBUS_RTU_SUCCESS

/-- From modBusRTU.c lines 163-204: `modbusRTUCheckRxState`.
Returns the error code, the updated handle (the `isRxDataReceived` flag), and
the caller-supplied output buffer after the call (`memcpy(data, rxPacket.data,
dataSize)` happens only on the success path). The `if false = true` branch
mirrors the dead `else if (false) { /* TODO timeOut */ }` in the source. -/
def modbusRTUCheckRxState (modbus : ModbusRTU_HandleT) (data : List Nat)
    (dataSize : Nat) (rxPacket : modBusPacket_t) :
    ModbusRTU_ErrorT × ModbusRTU_HandleT × List Nat :=
  if modbus.isRxDataReceived = true then
    if rxPacket.slaveId % 256 ≠ modbus.slaveId % 256 then
      (.MODBUS_RTU_ERROR_INVALID_SLAVE_ID, { modbus with isRxDataReceived := false }, data)
    else
      let calCrc := ModbusRTU_CalculateCRC (packetBytes rxPacket) (dataSize + 2)
      let receivedCRC :=
        ((rxPacket.data.getD dataSize 0 % 256) <<< 8) ||| (rxPacket.data.getD (dataSize + 1) 0 % 256)
      if calCrc ≠ receivedCRC then
        (.MODBUS_RTU_ERROR_CRC, { modbus with isRxDataReceived := false }, data)
      else
        (.MODBUS_RTU_SUCCESS, { modbus with isRxDataReceived := false },
          (rxPacket.data.take dataSize).map (fun b => b % 256) ++ data.drop dataSize)
  else if false = true then
    (.MODBUS_RTU_ERROR_RX_TIMEOUT, { modbus with isRxDataReceived := false }, data)
  else
    (.MODBUS_RTU_RX_BUSY, modbus, data)

/-- Modelled from the spec (4.1): the reference CRC-16/MODBUS algorithm —
initialise the accumulator to `0xFFFF`; for each byte, xor it into the low
byte; then eight times, if the low bit is set shift right and xor `0xA001`,
otherwise just shift right. Written as a fold over the byte sequence itself. -/
def crc16_ref (bytes : List Nat) : Nat :=
  bytes.foldl
    (fun crc b =>
      (fun c => if c % 2 = 1 then (c / 2) ^^^ 0xA001 else c / 2)^[8] (crc ^^^ (b % 256)))
    0xFFFF

/-- Modelled from the spec (4.2 Decode): the CRC reconstruction the spec
prescribes — the two CRC bytes sit at data offsets `dataSize` and
`dataSize + 1`, and the high byte is the second of the pair. -/
def receivedCRC_spec (rxPacket : modBusPacket_t) (dataSize : Nat) : Nat :=
  ((rxPacket.data.getD (dataSize + 1) 0 % 256) <<< 8) ||| (rxPacket.data.getD dataSize 0 % 256)

/-- Modelled from the spec (4.2 Encode): the frame layout Encode must produce —
`[slaveId][functionCode][payload...][crcLow][crcHigh]`, with the CRC computed
over the first `payloadLen + 2` bytes. -/
def encode_spec (slaveId functionCode : Nat) (payload : List Nat) : List Nat :=
  let header := slaveId % 256 :: functionCode % 256 :: payload.map (fun b => b % 256)
  let crc := ModbusRTU_CalculateCRC header (payload.length + 2)
  header ++ [crc &&& 0xFF, (crc >>> 8) &&& 0xFF]

/-! Helper lemmas about the CRC fold and the list surgery done by the frame
builder. -/

set_option maxRecDepth 8192

/-- Folding the CRC loop body over `List.range l.length` with indexed reads
equals folding directly over the list. -/
theorem foldl_range_getD {β : Type} (f : β → Nat → β) (l : List Nat) :
    ∀ init : β,
      (List.range l.length).foldl (fun acc i => f acc (l.getD i 0)) init = l.foldl f init := by
  induction l with
  | nil => intro init; rfl
  | cons a t ih =>
    intro init
    rw [List.length_cons, List.range_succ_eq_map]
    simp only [List.foldl_cons, List.foldl_map, List.getD_cons_zero, List.getD_cons_succ,
      Nat.succ_eq_add_one]
    exact ih (f init a)

/-- `List.getD` inside `take n` agrees with the original list below index `n`. -/
theorem getD_take_of_lt (l : List Nat) (n i : Nat) (h : i < n) :
    (l.take n).getD i 0 = l.getD i 0 := by
  rw [List.getD_eq_getElem?_getD, List.getD_eq_getElem?_getD, List.getElem?_take, if_pos h]

/-- `ModbusRTU_CalculateCRC` reads only the first `n` bytes of its buffer. -/
theorem calculateCRC_congr (l₁ l₂ : List Nat) (n : Nat) (h : l₁.take n = l₂.take n) :
    ModbusRTU_CalculateCRC l₁ n = ModbusRTU_CalculateCRC l₂ n := by
  unfold ModbusRTU_CalculateCRC
  refine List.foldl_ext _ _ 0xFFFF (fun acc i hi => ?_)
  rw [List.mem_range] at hi
  rw [← getD_take_of_lt l₁ n i hi, ← getD_take_of_lt l₂ n i hi, h]

/-- The source CRC over the first `length` bytes of a buffer equals the spec's
reference CRC of that byte sequence. -/
theorem calculateCRC_eq_ref (data : List Nat) (length : Nat) (h : length ≤ data.length) :
    ModbusRTU_CalculateCRC data length = crc16_ref (data.take length) := by
  have hlen : (data.take length).length = length := by
    rw [List.length_take]; omega
  have h1 : ModbusRTU_CalculateCRC data length
      = ModbusRTU_CalculateCRC (data.take length) length :=
    calculateCRC_congr _ _ _ (by rw [List.take_take, Nat.min_self])
  rw [h1]
  unfold ModbusRTU_CalculateCRC crc16_ref
  conv_lhs => rw [show List.range length = List.range (data.take length).length from by rw [hlen]]
  exact foldl_range_getD crc16UpdateByte (data.take length) 0xFFFF

/-- Reducing a byte value modulo 256 twice is the same as once. -/
theorem mod256_mod256 (a : Nat) : a % 256 % 256 = a % 256 :=
  Nat.mod_mod_of_dvd a dvd_rfl

/-- Writing at the index just past `l₁` inside `l₁ ++ l₂` writes into `l₂`. -/
theorem set_append_right_zero (l₁ l₂ : List Nat) (a : Nat) :
    (l₁ ++ l₂).set l₁.length a = l₁ ++ l₂.set 0 a := by
  induction l₁ with
  | nil => rfl
  | cons x t ih =>
    simp only [List.cons_append, List.length_cons, List.set_cons_succ, ih]

/-- Writing at index `l₁.length + 1` inside `l₁ ++ l₂` writes into `l₂`. -/
theorem set_append_right_one (l₁ l₂ : List Nat) (a : Nat) :
    (l₁ ++ l₂).set (l₁.length + 1) a = l₁ ++ l₂.set 1 a := by
  induction l₁ with
  | nil => rfl
  | cons x t ih =>
    simp only [List.cons_append, List.length_cons]
    rw [show t.length + 1 + 1 = (t.length + 1) + 1 from rfl, List.set_cons_succ, ih]

/-- Overwriting both cells of a length-2 list yields the pair written. -/
theorem set_two_of_length_two (l : List Nat) (lo hi : Nat) (h : l.length = 2) :
    (l.set 0 lo).set 1 hi = [lo, hi] := by
  match l, h with
  | [a, b], _ => rfl

/-- The frame builder's list surgery: copy the payload, write the two CRC
bytes just past it, truncate to `dataSize + 4` — the result is header,
payload, then the two CRC bytes. -/
theorem frame_construction_eq (pl rest : List Nat) (dataSize lo hi s f : Nat)
    (hpl : pl.length = dataSize) (hrest : 2 ≤ rest.length) :
    (s :: f :: (((pl ++ rest).set dataSize lo).set (dataSize + 1) hi)).take (dataSize + 4)
      = s :: f :: (pl ++ [lo, hi]) := by
  rw [show dataSize + 4 = (dataSize + 3) + 1 from rfl, List.take_succ_cons,
      show dataSize + 3 = (dataSize + 2) + 1 from rfl, List.take_succ_cons,
      List.set_take, List.set_take,
      show dataSize = pl.length from hpl.symm,
      List.take_append, set_append_right_zero, set_append_right_one,
      set_two_of_length_two (rest.take 2) lo hi (by rw [List.length_take]; omega)]

/-! Claim theorems. -/

/-- Claim C1 (refuted by the code): encoding `(slaveId = 1, functionCode = 3,
payload = [])` with `modbusRTUSendData` and then decoding that exact frame via
`modbusRTUCheckRxState` (data-received flag set, same slave id, payload
length 0) returns `MODBUS_RTU_ERROR_CRC` instead of success: the encoder
stores the CRC low byte first (`0x40` then `0x21` for CRC `0x2140`), while the
decoder reconstructs the received CRC with the first byte of the pair as the
high byte, so the round trip fails whenever the CRC's low and high bytes
differ. -/
theorem C1_encode_decode_roundtrip_fails :
    ((modbusRTUCheckRxState ⟨1, true⟩ (List.replicate 250 0) 0
        (modbusRTUSendData ⟨1, false⟩ 3 [] 0 true zeroPacket).2.1).1
      = ModbusRTU_ErrorT.MODBUS_RTU_ERROR_CRC)
    ∧ (modbusRTUSendData ⟨1, false⟩ 3 [] 0 true zeroPacket).2.1.data.getD 0 0 = 0x40
    ∧ (modbusRTUSendData ⟨1, false⟩ 3 [] 0 true zeroPacket).2.1.data.getD 1 0 = 0x21
    ∧ ModbusRTU_CalculateCRC
        (packetBytes (modbusRTUSendData ⟨1, false⟩ 3 [] 0 true zeroPacket).2.1) 2 = 0x2140 := by
  decide

/-- Claim C2: `ModbusRTU_CalculateCRC` computes exactly the reference
CRC-16/MODBUS algorithm (accumulator starts at `0xFFFF`; each byte is xored
into the low byte; then eight rounds of shift-right, xoring `0xA001` when the
low bit was set), and the published Modbus RTU test frame `01 04 02 FF FF`
yields the reference value `0x80B8`. -/
theorem C2_calculateCRC_matches_reference :
    (∀ (data : List Nat) (length : Nat), length ≤ data.length →
        ModbusRTU_CalculateCRC data length = crc16_ref (data.take length))
    ∧ ModbusRTU_CalculateCRC [0x01, 0x04, 0x02, 0xFF, 0xFF] 5 = 0x80B8 :=
  ⟨calculateCRC_eq_ref, by decide⟩

/-- Witness for C2: the CRC of the concrete buffer `[0x01, 0x03]` of length 2
matches the reference fold. -/
theorem C2_calculateCRC_matches_reference_witness :
    ModbusRTU_CalculateCRC [0x01, 0x03] 2 = crc16_ref ([0x01, 0x03].take 2) :=
  C2_calculateCRC_matches_reference.1 [0x01, 0x03] 2 (by decide)

/-- Claim C3 (refuted by the code): on a received frame whose trailing CRC
bytes are exactly what the encoder produced (low byte at data offset
`dataSize`, high byte at `dataSize + 1`), the spec's reconstruction
`receivedCRC_spec` (second byte of the pair as the high byte) equals the CRC
computed over the first `dataSize + 2` bytes — yet `modbusRTUCheckRxState`
returns `MODBUS_RTU_ERROR_CRC`, because the code reconstructs the received
CRC as `(data[dataSize] << 8) | data[dataSize + 1]`, taking the FIRST byte of
the pair as the high byte. -/
theorem C3_crc_reconstruction_byte_order :
    (receivedCRC_spec (modbusRTUSendData ⟨1, false⟩ 3 [] 0 true zeroPacket).2.1 0
       = ModbusRTU_CalculateCRC
           (packetBytes (modbusRTUSendData ⟨1, false⟩ 3 [] 0 true zeroPacket).2.1) 2)
    ∧ (modbusRTUCheckRxState ⟨1, true⟩ (List.replicate 250 0) 0
        (modbusRTUSendData ⟨1, false⟩ 3 [] 0 true zeroPacket).2.1).1
      = ModbusRTU_ErrorT.MODBUS_RTU_ERROR_CRC := by
  decide

/-- Claim C4 (refuted by the code): when no completion notification has
arrived (`isRxDataReceived = false`), `modbusRTUCheckRxState` returns
`MODBUS_RTU_RX_BUSY` and never `MODBUS_RTU_ERROR_RX_TIMEOUT`, no matter how
much time has elapsed — the timeout branch in the source is `else if (false)`
and is unreachable, so the machine never reports a timeout. -/
theorem C4_timeout_unreachable (modbus : ModbusRTU_HandleT) (out : List Nat)
    (dataSize : Nat) (rx : modBusPacket_t) (h : modbus.isRxDataReceived = false) :
    (modbusRTUCheckRxState modbus out dataSize rx).1 = ModbusRTU_ErrorT.MODBUS_RTU_RX_BUSY
    ∧ (modbusRTUCheckRxState modbus out dataSize rx).1
        ≠ ModbusRTU_ErrorT.MODBUS_RTU_ERROR_RX_TIMEOUT := by
  have hb : (modbusRTUCheckRxState modbus out dataSize rx).1
      = ModbusRTU_ErrorT.MODBUS_RTU_RX_BUSY := by
    unfold modbusRTUCheckRxState
    rw [h]
    rfl
  exact ⟨hb, by rw [hb]; decide⟩

/-- Witness for C4: with the flag clear on a concrete handle, the call
returns busy, not timeout. -/
theorem C4_timeout_unreachable_witness :
    (modbusRTUCheckRxState ⟨1, false⟩ [] 0 zeroPacket).1 = ModbusRTU_ErrorT.MODBUS_RTU_RX_BUSY
    ∧ (modbusRTUCheckRxState ⟨1, false⟩ [] 0 zeroPacket).1
        ≠ ModbusRTU_ErrorT.MODBUS_RTU_ERROR_RX_TIMEOUT :=
  C4_timeout_unreachable ⟨1, false⟩ [] 0 zeroPacket rfl

/-- Claim C5 (refuted by the code): `modbusRTUSendData` performs no
pending-transaction check — a second submit issued while the first
transaction is still unresolved (flag clear, no result retrieved) also
returns `MODBUS_RTU_SUCCESS` and silently overwrites the shared `txPacket`
buffer (the first payload byte `0xAA` is replaced by `0xBB`). -/
theorem C5_submit_while_pending_overwrites :
    ((modbusRTUSendData ⟨1, false⟩ 3 [0xAA] 1 true zeroPacket).1
       = ModbusRTU_ErrorT.MODBUS_RTU_SUCCESS)
    ∧ (modbusRTUSendData ⟨1, false⟩ 3 [0xAA] 1 true zeroPacket).2.1.data.getD 0 0 = 0xAA
    ∧ ((modbusRTUSendData ⟨1, false⟩ 6 [0xBB] 1 true
          (modbusRTUSendData ⟨1, false⟩ 3 [0xAA] 1 true zeroPacket).2.1).1
        = ModbusRTU_ErrorT.MODBUS_RTU_SUCCESS)
    ∧ (modbusRTUSendData ⟨1, false⟩ 6 [0xBB] 1 true
          (modbusRTUSendData ⟨1, false⟩ 3 [0xAA] 1 true zeroPacket).2.1).2.1.data.getD 0 0
        = 0xBB := by
  decide

/-- Claim C6: for every payload of length `dataSize ≤ 250` (and the 252-byte
static tx buffer), `modbusRTUSendData` hands the transport exactly the frame
`encode_spec` describes — slave id, function code, the payload bytes, then
the low byte and then the high byte of the CRC computed over the first
`dataSize + 2` bytes — and that frame is exactly `dataSize + 4` bytes long. -/
theorem C6_sendData_frame_layout (modbus : ModbusRTU_HandleT) (functionCode : Nat)
    (data : List Nat) (dataSize : Nat) (txOk : Bool) (txPacket : modBusPacket_t)
    (hsize : dataSize ≤ MODBUS_RTU_MAX_DATA_SIZE)
    (hdata : data.length = dataSize)
    (htx : txPacket.data.length = MODBUS_RTU_MAX_DATA_SIZE + 2) :
    (modbusRTUSendData modbus functionCode data dataSize txOk txPacket).2.2
      = some (encode_spec modbus.slaveId functionCode data)
    ∧ (encode_spec modbus.slaveId functionCode data).length = dataSize + 4 := by
  have hsize' : dataSize ≤ 250 := hsize
  have htx' : txPacket.data.length = 252 := htx
  have hnot : ¬ dataSize > MODBUS_RTU_MAX_DATA_SIZE := Nat.not_lt.mpr hsize
  have h_take : data.take dataSize = data := by rw [← hdata, List.take_length]
  have hpl : (data.map (fun b => b % 256)).length = dataSize := by
    rw [List.length_map, hdata]
  have hrest : 2 ≤ (txPacket.data.drop dataSize).length := by
    rw [List.length_drop, htx']; omega
  have hcrc : ModbusRTU_CalculateCRC
        (modbus.slaveId % 256 :: functionCode % 256 ::
          (data.map (fun b => b % 256) ++ txPacket.data.drop dataSize))
        (dataSize + 2)
      = ModbusRTU_CalculateCRC
        (modbus.slaveId % 256 :: functionCode % 256 :: data.map (fun b => b % 256))
        (data.length + 2) := by
    rw [hdata]
    apply calculateCRC_congr
    rw [show dataSize + 2 = (dataSize + 1) + 1 from rfl]
    simp only [List.take_succ_cons]
    rw [List.take_left' hpl, ← hpl, List.take_length]
  constructor
  · unfold modbusRTUSendData encode_spec
    rw [if_neg hnot]
    cases txOk
    · simp only [packetBytes, mod256_mod256, hcrc, h_take, Option.some.injEq]
      rw [frame_construction_eq (data.map (fun b => b % 256)) (txPacket.data.drop dataSize)
            dataSize _ _ _ _ hpl hrest]
      simp [List.cons_append]
    · simp only [packetBytes, mod256_mod256, hcrc, h_take, Option.some.injEq]
      rw [frame_construction_eq (data.map (fun b => b % 256)) (txPacket.data.drop dataSize)
            dataSize _ _ _ _ hpl hrest]
      simp [List.cons_append]
  · unfold encode_spec
    simp only [List.length_append, List.length_cons, List.length_map, List.length_nil, hdata]

/-- Witness for C6: a concrete one-byte payload submit produces exactly the
spec frame of length 5. -/
theorem C6_sendData_frame_layout_witness :
    ((modbusRTUSendData ⟨1, false⟩ 3 [0xAB] 1 true zeroPacket).2.2
       = some (encode_spec 1 3 [0xAB]))
    ∧ (encode_spec 1 3 [0xAB]).length = 1 + 4 :=
  C6_sendData_frame_layout ⟨1, false⟩ 3 [0xAB] 1 true zeroPacket (by decide) (by decide)
    (by decide)

/-- Claim C7: both `modbusRTUSendData` and `modbusRTUReciveData` reject any
data size greater than 250 (hence 251) with `MODBUS_RTU_ERROR_INVALID_FRAME`,
and at exactly 250 neither returns that error: the submit succeeds when the
transport send succeeds, and the receive arming returns success. -/
theorem C7_size_limits :
    (∀ (modbus : ModbusRTU_HandleT) (fc : Nat) (data : List Nat) (txOk : Bool)
        (tx : modBusPacket_t) (dataSize : Nat), MODBUS_RTU_MAX_DATA_SIZE < dataSize →
        (modbusRTUSendData modbus fc data dataSize txOk tx).1
          = ModbusRTU_ErrorT.MODBUS_RTU_ERROR_INVALID_FRAME)
    ∧ (∀ dataSize : Nat, MODBUS_RTU_MAX_DATA_SIZE < dataSize →
        modbusRTUReciveData dataSize = ModbusRTU_ErrorT.MODBUS_RTU_ERROR_INVALID_FRAME)
    ∧ (∀ (modbus : ModbusRTU_HandleT) (fc : Nat) (data : List Nat) (tx : modBusPacket_t),
        (modbusRTUSendData modbus fc data MODBUS_RTU_MAX_DATA_SIZE true tx).1
          = ModbusRTU_ErrorT.MODBUS_RTU_SUCCESS)
    ∧ modbusRTUReciveData MODBUS_RTU_MAX_DATA_SIZE = ModbusRTU_ErrorT.MODBUS_RTU_SUCCESS := by
  refine ⟨fun modbus fc data txOk tx dataSize h => ?_, fun dataSize h => ?_,
          fun modbus fc data tx => ?_, ?_⟩
  · unfold modbusRTUSendData; rw [if_pos h]
  · unfold modbusRTUReciveData; rw [if_pos h]
  · unfold modbusRTUSendData
    rw [if_neg (Nat.lt_irrefl MODBUS_RTU_MAX_DATA_SIZE)]
    rfl
  · rfl

/-- Witness for C7: size 251 is rejected by both entry points; size 250 is
accepted by both. -/
theorem C7_size_limits_witness :
    (modbusRTUSendData ⟨1, false⟩ 3 [] 251 true zeroPacket).1
      = ModbusRTU_ErrorT.MODBUS_RTU_ERROR_INVALID_FRAME
    ∧ modbusRTUReciveData 251 = ModbusRTU_ErrorT.MODBUS_RTU_ERROR_INVALID_FRAME
    ∧ (modbusRTUSendData ⟨1, false⟩ 3 [] MODBUS_RTU_MAX_DATA_SIZE true zeroPacket).1
      = ModbusRTU_ErrorT.MODBUS_RTU_SUCCESS
    ∧ modbusRTUReciveData MODBUS_RTU_MAX_DATA_SIZE = ModbusRTU_ErrorT.MODBUS_RTU_SUCCESS :=
  ⟨C7_size_limits.1 ⟨1, false⟩ 3 [] true zeroPacket 251 (by decide),
   C7_size_limits.2.1 251 (by decide),
   C7_size_limits.2.2.1 ⟨1, false⟩ 3 [] zeroPacket,
   C7_size_limits.2.2.2⟩

/-- Claim C8: with the data-received flag set, whenever the received packet's
slave id byte differs from the engine's configured slave id,
`modbusRTUCheckRxState` returns `MODBUS_RTU_ERROR_INVALID_SLAVE_ID` — for
every possible packet content, so in particular even when the packet's CRC is
valid: the verdict is independent of the CRC bytes, reflecting that the
slave-id check is decided before any CRC computation. -/
theorem C8_wrong_slave_id (modbus : ModbusRTU_HandleT) (out : List Nat)
    (dataSize : Nat) (rx : modBusPacket_t)
    (hflag : modbus.isRxDataReceived = true)
    (hid : rx.slaveId % 256 ≠ modbus.slaveId % 256) :
    (modbusRTUCheckRxState modbus out dataSize rx).1
      = ModbusRTU_ErrorT.MODBUS_RTU_ERROR_INVALID_SLAVE_ID := by
  unfold modbusRTUCheckRxState
  simp [hflag, hid]

/-- Witness for C8: slave id 2 received while the engine expects 1. -/
theorem C8_wrong_slave_id_witness :
    (modbusRTUCheckRxState ⟨1, true⟩ [] 0 ⟨2, 0, [0, 0]⟩).1
      = ModbusRTU_ErrorT.MODBUS_RTU_ERROR_INVALID_SLAVE_ID :=
  C8_wrong_slave_id ⟨1, true⟩ [] 0 ⟨2, 0, [0, 0]⟩ rfl (by decide)

/-- Claim C9: whenever `modbusRTUCheckRxState` is called with the
data-received flag set it runs the decode validation, clears the flag
(whatever the verdict), and returns success, a CRC error, or an invalid slave
id — and when the result is success, the decoded payload (the first
`dataSize` received data bytes) has been copied into the caller's output
buffer, whose remainder is untouched; whenever it is called with the flag
clear it returns `MODBUS_RTU_RX_BUSY` and the flag remains clear. -/
theorem C9_flag_and_result_semantics :
    (∀ (modbus : ModbusRTU_HandleT) (out : List Nat) (dataSize : Nat) (rx : modBusPacket_t),
        modbus.isRxDataReceived = true →
        ((modbusRTUCheckRxState modbus out dataSize rx).2.1.isRxDataReceived = false
         ∧ ((modbusRTUCheckRxState modbus out dataSize rx).1
              = ModbusRTU_ErrorT.MODBUS_RTU_SUCCESS
            ∨ (modbusRTUCheckRxState modbus out dataSize rx).1
              = ModbusRTU_ErrorT.MODBUS_RTU_ERROR_CRC
            ∨ (modbusRTUCheckRxState modbus out dataSize rx).1
              = ModbusRTU_ErrorT.MODBUS_RTU_ERROR_INVALID_SLAVE_ID)
         ∧ ((modbusRTUCheckRxState modbus out dataSize rx).1
              = ModbusRTU_ErrorT.MODBUS_RTU_SUCCESS →
            (modbusRTUCheckRxState modbus out dataSize rx).2.2
              = (rx.data.take dataSize).map (fun b => b % 256) ++ out.drop dataSize)))
    ∧ (∀ (modbus : ModbusRTU_HandleT) (out : List Nat) (dataSize : Nat) (rx : modBusPacket_t),
        modbus.isRxDataReceived = false →
        ((modbusRTUCheckRxState modbus out dataSize rx).1 = ModbusRTU_ErrorT.MODBUS_RTU_RX_BUSY
         ∧ (modbusRTUCheckRxState modbus out dataSize rx).2.1.isRxDataReceived = false)) := by
  constructor
  · intro modbus out dataSize rx hflag
    unfold modbusRTUCheckRxState
    by_cases hid : rx.slaveId % 256 = modbus.slaveId % 256
    · by_cases hcrc : ModbusRTU_CalculateCRC (packetBytes rx) (dataSize + 2)
          = (rx.data[dataSize]?.getD 0 % 256) <<< 8 ||| rx.data[dataSize + 1]?.getD 0 % 256
      · simp [hflag, hid, hcrc]
      · simp [hflag, hid, hcrc]
    · simp [hflag, hid]
  · intro modbus out dataSize rx hflag
    unfold modbusRTUCheckRxState
    simp [hflag]

/-- Witness for C9: a flag-set call on the valid frame `01 03 AB 4F 61`
(payload `0xAB`, CRC bytes as the decoder expects them) clears the flag,
yields one of the three decode verdicts, and — the result being success —
copies the payload `0xAB` into the caller's buffer; a flag-clear call reports
busy with the flag clear. -/
theorem C9_flag_and_result_semantics_witness :
    ((modbusRTUCheckRxState ⟨1, true⟩ [0, 0] 1 ⟨1, 3, [0xAB, 0x4F, 0x61]⟩).2.1.isRxDataReceived
        = false
     ∧ ((modbusRTUCheckRxState ⟨1, true⟩ [0, 0] 1 ⟨1, 3, [0xAB, 0x4F, 0x61]⟩).1
          = ModbusRTU_ErrorT.MODBUS_RTU_SUCCESS
        ∨ (modbusRTUCheckRxState ⟨1, true⟩ [0, 0] 1 ⟨1, 3, [0xAB, 0x4F, 0x61]⟩).1
          = ModbusRTU_ErrorT.MODBUS_RTU_ERROR_CRC
        ∨ (modbusRTUCheckRxState ⟨1, true⟩ [0, 0] 1 ⟨1, 3, [0xAB, 0x4F, 0x61]⟩).1
          = ModbusRTU_ErrorT.MODBUS_RTU_ERROR_INVALID_SLAVE_ID)
     ∧ ((modbusRTUCheckRxState ⟨1, true⟩ [0, 0] 1 ⟨1, 3, [0xAB, 0x4F, 0x61]⟩).1
          = ModbusRTU_ErrorT.MODBUS_RTU_SUCCESS →
        (modbusRTUCheckRxState ⟨1, true⟩ [0, 0] 1 ⟨1, 3, [0xAB, 0x4F, 0x61]⟩).2.2
          = ([0xAB, 0x4F, 0x61].take 1).map (fun b => b % 256) ++ [0, 0].drop 1))
    ∧ ((modbusRTUCheckRxState ⟨2, false⟩ [] 0 zeroPacket).1
         = ModbusRTU_ErrorT.MODBUS_RTU_RX_BUSY
       ∧ (modbusRTUCheckRxState ⟨2, false⟩ [] 0 zeroPacket).2.1.isRxDataReceived = false) :=
  ⟨C9_flag_and_result_semantics.1 ⟨1, true⟩ [0, 0] 1 ⟨1, 3, [0xAB, 0x4F, 0x61]⟩ rfl,
   C9_flag_and_result_semantics.2 ⟨2, false⟩ [] 0 zeroPacket rfl⟩

/-- Claim C10: whenever `modbusRTUCheckRxState` returns anything other than
`MODBUS_RTU_SUCCESS` (invalid slave id, CRC error, busy — and the unreachable
timeout), the caller-supplied output buffer is returned completely
unmodified; the payload is copied out only on the success path. -/
theorem C10_out_buffer_unchanged_on_failure (modbus : ModbusRTU_HandleT) (out : List Nat)
    (dataSize : Nat) (rx : modBusPacket_t)
    (h : (modbusRTUCheckRxState modbus out dataSize rx).1
           ≠ ModbusRTU_ErrorT.MODBUS_RTU_SUCCESS) :
    (modbusRTUCheckRxState modbus out dataSize rx).2.2 = out := by
  by_cases hflag : modbus.isRxDataReceived = true
  · by_cases hid : rx.slaveId % 256 = modbus.slaveId % 256
    · by_cases hcrc : ModbusRTU_CalculateCRC (packetBytes rx) (dataSize + 2)
          = (rx.data[dataSize]?.getD 0 % 256) <<< 8 ||| rx.data[dataSize + 1]?.getD 0 % 256
      · exfalso
        apply h
        unfold modbusRTUCheckRxState
        simp [hflag, hid, hcrc]
      · unfold modbusRTUCheckRxState
        simp [hflag, hid, hcrc]
    · unfold modbusRTUCheckRxState
      simp [hflag, hid]
  · have hflag' : modbus.isRxDataReceived = false := by
      cases hb : modbus.isRxDataReceived
      · rfl
      · exact absurd hb hflag
    unfold modbusRTUCheckRxState
    simp [hflag']

/-- Witness for C10: a busy (flag-clear) call leaves the output buffer `[5]`
untouched. -/
theorem C10_out_buffer_unchanged_on_failure_witness :
    (modbusRTUCheckRxState ⟨1, false⟩ [5] 0 zeroPacket).2.2 = [5] :=
  C10_out_buffer_unchanged_on_failure ⟨1, false⟩ [5] 0 zeroPacket (by decide)
